import Mathlib

/-!
Shallow embedding of the client-side page-routing and transition controller of
`src/script.js` (class `ModernWebApp`): the Router (`navigateTo`, `loadPage`,
`getPageContent`), the History Synchronizer (`handlePopState`, the
`history.pushState` call inside `navigateTo`) and the Transition/Animation
Controller (`fadeOut`/`fadeIn` timing, `setupAnimations`,
`setupScrollAnimations`, the intersection-observer callback).

The single-threaded browser event loop is embedded by splitting the `async`
function `loadPage` at its suspension points: `loadPageSync` is everything that
runs synchronously up to the first `await` (the fade-out timer), and
`loadPageCont` is the continuation that runs when that timer fires, through
`catch`/`finally`.  `navigateToSync` is the synchronous body of `navigateTo`
(guard, start of `loadPage`, history push): the state it returns is the state
observable while the transition is still in flight.  Every operation also
returns the chronological trace of its externally visible DOM/history effects
as a `List Ev`.

Exceptions inside the `try` block of `loadPage` are embedded by a fault oracle
(`Faults`) for the two fade steps, plus the one genuine throw site of the
source: `setupScrollAnimations` evaluates `new IntersectionObserver` unguarded,
which throws when the host lacks the capability.
-/

namespace Birtne

/-- One record of the `projects` array in `getProjectCards`.  `delay` holds the
string the JS number renders to when interpolated into the template. -/
structure Project where
  title : String
  description : String
  tags : List String
  icon : String
  delay : String
  deriving Repr, DecidableEq

/-- The six project records of `getProjectCards`. -/
def projects : List Project :=
  [ { title := "企业级管理系统",
      description := "基于微服务架构的现代化企业管理平台，支持多租户、权限管理和实时数据分析。",
      tags := ["React", "Node.js", "PostgreSQL", "Docker"],
      icon := "fas fa-building",
      delay := "0" },
    { title := "电商解决方案",
      description := "全栈电商平台，包含用户管理、商品展示、购物车、支付系统等完整功能模块。",
      tags := ["Vue.js", "Express", "MongoDB", "Redis"],
      icon := "fas fa-shopping-cart",
      delay := "0.1" },
    { title := "数据可视化平台",
      description := "企业级数据分析和可视化平台，支持多种图表类型、实时数据展示和自定义仪表板。",
      tags := ["React", "D3.js", "Python", "FastAPI"],
      icon := "fas fa-chart-line",
      delay := "0.2" },
    { title := "移动端应用",
      description := "跨平台移动应用，提供原生应用的体验，支持离线使用、推送通知等功能。",
      tags := ["React Native", "TypeScript", "Firebase"],
      icon := "fas fa-mobile-alt",
      delay := "0.3" },
    { title := "开发者工具",
      description := "提升开发效率的工具集，包含代码生成、自动化部署、性能监控等功能。",
      tags := ["Node.js", "CLI", "GitHub Actions"],
      icon := "fas fa-tools",
      delay := "0.4" },
    { title := "设计系统",
      description := "企业级设计系统，包含完整的组件库、设计指南和开发工具链。",
      tags := ["React", "Storybook", "Figma", "CSS"],
      icon := "fas fa-palette",
      delay := "0.5" } ]

/-- Home page payload (template literal of getHomeContent). -/
def getHomeContent : String :=
  r##"
      <!-- 英雄区域 -->
      <section class="hero">
        <div class="hero-container">
          <h1 class="hero-title animate-fade-in-up">
            Birtney666
          </h1>
          <p class="hero-subtitle animate-fade-in-up" style="animation-delay: 0.1s;">
            开发者 & 创造者
          </p>
          <p class="animate-fade-in-up" style="animation-delay: 0.2s; max-width: 600px; margin: 0 auto var(--space-12); color: var(--text-secondary); font-size: var(--text-lg); line-height: var(--leading-relaxed);">
            专注于创造优雅的数字解决方案和令人惊叹的用户体验，用技术连接想象与现实。
          </p>
          <div class="hero-actions animate-fade-in-up" style="animation-delay: 0.3s;">
            <a href="#" class="btn btn-primary" data-page="projects">
              <i class="fas fa-code" aria-hidden="true"></i>
              查看项目
            </a>
            <a href="#" class="btn btn-secondary" data-page="contact">
              <i class="fas fa-envelope" aria-hidden="true"></i>
              联系我
            </a>
          </div>
        </div>
      </section>

      <!-- 核心能力 -->
      <section class="section">
        <div class="container">
          <div class="section-header">
            <h2 class="section-title animate-on-scroll">核心能力</h2>
            <p class="section-subtitle animate-on-scroll">
              专业技能与创新思维的完美结合
            </p>
          </div>

          <div class="grid grid-cols-1 md:grid-cols-2 lg:grid-cols-3">
            <div class="card animate-on-scroll hover-lift">
              <div class="card-header">
                <div style="width: 3rem; height: 3rem; background: linear-gradient(135deg, var(--blue-500), var(--blue-600)); border-radius: var(--radius-xl); display: flex; align-items: center; justify-content: center; color: white; margin-bottom: var(--space-4);">
                  <i class="fas fa-code" style="font-size: 1.25rem;"></i>
                </div>
                <h3 class="card-title">前端开发</h3>
                <p class="card-description">
                  精通现代前端技术栈，创造优秀的用户界面和交互体验。
                </p>
              </div>
              <div class="card-content">
                <div style="display: flex; flex-wrap: wrap; gap: var(--space-2);">
                  <span style="background: var(--surface-accent); color: var(--text-accent); padding: var(--space-1) var(--space-3); border-radius: var(--radius-full); font-size: var(--text-xs); font-weight: var(--font-weight-medium);">React</span>
                  <span style="background: var(--surface-accent); color: var(--text-accent); padding: var(--space-1) var(--space-3); border-radius: var(--radius-full); font-size: var(--text-xs); font-weight: var(--font-weight-medium);">Vue.js</span>
                  <span style="background: var(--surface-accent); color: var(--text-accent); padding: var(--space-1) var(--space-3); border-radius: var(--radius-full); font-size: var(--text-xs); font-weight: var(--font-weight-medium);">TypeScript</span>
                </div>
              </div>
            </div>

            <div class="card animate-on-scroll hover-lift" style="animation-delay: 0.1s;">
              <div class="card-header">
                <div style="width: 3rem; height: 3rem; background: linear-gradient(135deg, var(--blue-500), var(--blue-600)); border-radius: var(--radius-xl); display: flex; align-items: center; justify-content: center; color: white; margin-bottom: var(--space-4);">
                  <i class="fas fa-server" style="font-size: 1.25rem;"></i>
                </div>
                <h3 class="card-title">后端架构</h3>
                <p class="card-description">
                  构建高性能、可扩展的服务器端应用和微服务架构。
                </p>
              </div>
              <div class="card-content">
                <div style="display: flex; flex-wrap: wrap; gap: var(--space-2);">
                  <span style="background: var(--surface-accent); color: var(--text-accent); padding: var(--space-1) var(--space-3); border-radius: var(--radius-full); font-size: var(--text-xs); font-weight: var(--font-weight-medium);">Node.js</span>
                  <span style="background: var(--surface-accent); color: var(--text-accent); padding: var(--space-1) var(--space-3); border-radius: var(--radius-full); font-size: var(--text-xs); font-weight: var(--font-weight-medium);">Python</span>
                  <span style="background: var(--surface-accent); color: var(--text-accent); padding: var(--space-1) var(--space-3); border-radius: var(--radius-full); font-size: var(--text-xs); font-weight: var(--font-weight-medium);">Docker</span>
                </div>
              </div>
            </div>

            <div class="card animate-on-scroll hover-lift" style="animation-delay: 0.2s;">
              <div class="card-header">
                <div style="width: 3rem; height: 3rem; background: linear-gradient(135deg, var(--blue-500), var(--blue-600)); border-radius: var(--radius-xl); display: flex; align-items: center; justify-content: center; color: white; margin-bottom: var(--space-4);">
                  <i class="fas fa-palette" style="font-size: 1.25rem;"></i>
                </div>
                <h3 class="card-title">用户体验</h3>
                <p class="card-description">
                  以用户为中心的设计思维，创造直观且令人愉悦的产品体验。
                </p>
              </div>
              <div class="card-content">
                <div style="display: flex; flex-wrap: wrap; gap: var(--space-2);">
                  <span style="background: var(--surface-accent); color: var(--text-accent); padding: var(--space-1) var(--space-3); border-radius: var(--radius-full); font-size: var(--text-xs); font-weight: var(--font-weight-medium);">UI/UX</span>
                  <span style="background: var(--surface-accent); color: var(--text-accent); padding: var(--space-1) var(--space-3); border-radius: var(--radius-full); font-size: var(--text-xs); font-weight: var(--font-weight-medium);">Figma</span>
                  <span style="background: var(--surface-accent); color: var(--text-accent); padding: var(--space-1) var(--space-3); border-radius: var(--radius-full); font-size: var(--text-xs); font-weight: var(--font-weight-medium);">原型设计</span>
                </div>
              </div>
            </div>
          </div>
        </div>
      </section>
    "##

/-- About page payload (template literal of getAboutContent). -/
def getAboutContent : String :=
  r##"
      <section class="hero">
        <div class="hero-container">
          <h1 class="hero-title animate-fade-in-up">关于我</h1>
          <p class="hero-subtitle animate-fade-in-up" style="animation-delay: 0.1s;">
            了解我的技术之旅与创造理念
          </p>
        </div>
      </section>

      <section class="section">
        <div class="container">
          <div class="grid grid-cols-1 lg:grid-cols-2" style="gap: var(--space-16);">
            <div class="animate-on-scroll">
              <h2 style="font-size: var(--text-2xl); font-weight: var(--font-weight-bold); margin-bottom: var(--space-6); color: var(--text-primary);">
                我的故事
              </h2>
              <div style="space-y: var(--space-6); color: var(--text-secondary); line-height: var(--leading-relaxed);">
                <p style="margin-bottom: var(--space-6);">
                  我是一名充满激情的全栈开发者，拥有多年的软件开发经验。我热爱创造能够解决实际问题的技术解决方案，并且始终追求代码的优雅与效率。
                </p>
                <p style="margin-bottom: var(--space-6);">
                  在我的职业生涯中，我参与过各种规模的项目，从小型创业产品到大型企业级系统。我相信技术应该服务于人，让生活变得更美好。
                </p>
                <p>
                  除了编程，我还热衷于学习新技术、分享知识，并且积极参与开源社区。我认为持续学习是成为优秀开发者的关键。
                </p>
              </div>
            </div>

            <div class="animate-on-scroll" style="animation-delay: 0.1s;">
              <div class="card">
                <div class="card-header">
                  <h3 class="card-title">技术栈</h3>
                </div>
                <div class="card-content">
                  <div style="space-y: var(--space-4);">
                    <div>
                      <h4 style="font-weight: var(--font-weight-semibold); margin-bottom: var(--space-2); color: var(--text-primary);">
                        前端技术
                      </h4>
                      <p style="color: var(--text-secondary); font-size: var(--text-sm);">
                        React, Vue.js, TypeScript, Next.js, Tailwind CSS, Webpack
                      </p>
                    </div>
                    <div>
                      <h4 style="font-weight: var(--font-weight-semibold); margin-bottom: var(--space-2); color: var(--text-primary);">
                        后端技术
                      </h4>
                      <p style="color: var(--text-secondary); font-size: var(--text-sm);">
                        Node.js, Python, Java, Express, Django, GraphQL
                      </p>
                    </div>
                    <div>
                      <h4 style="font-weight: var(--font-weight-semibold); margin-bottom: var(--space-2); color: var(--text-primary);">
                        数据库 & 工具
                      </h4>
                      <p style="color: var(--text-secondary); font-size: var(--text-sm);">
                        MySQL, PostgreSQL, MongoDB, Redis, Docker, AWS, Git
                      </p>
                    </div>
                  </div>
                </div>
              </div>
            </div>
          </div>
        </div>
      </section>
    "##

/-- Contact page payload (template literal of getContactContent). -/
def getContactContent : String :=
  r##"
      <section class="hero">
        <div class="hero-container">
          <h1 class="hero-title animate-fade-in-up">联系我</h1>
          <p class="hero-subtitle animate-fade-in-up" style="animation-delay: 0.1s;">
            让我们一起创造美好的项目
          </p>
        </div>
      </section>

      <section class="section">
        <div class="container">
          <div class="grid grid-cols-1 lg:grid-cols-2" style="gap: var(--space-16);">
            <div class="animate-on-scroll">
              <h2 style="font-size: var(--text-2xl); font-weight: var(--font-weight-bold); margin-bottom: var(--space-6); color: var(--text-primary);">
                取得联系
              </h2>
              <p style="margin-bottom: var(--space-8); color: var(--text-secondary); line-height: var(--leading-relaxed);">
                如果您有项目合作、技术咨询或任何问题，欢迎随时与我联系。我很乐意与您讨论如何将您的想法变为现实。
              </p>
              
              <div style="space-y: var(--space-6);">
                <div style="display: flex; align-items: center; gap: var(--space-4); margin-bottom: var(--space-6);">
                  <div style="width: 3rem; height: 3rem; background: var(--blue-500); border-radius: var(--radius-lg); display: flex; align-items: center; justify-content: center; color: white;">
                    <i class="fas fa-envelope"></i>
                  </div>
                  <div>
                    <h4 style="font-weight: var(--font-weight-semibold); color: var(--text-primary);">邮箱</h4>
                    <p style="color: var(--text-secondary); font-size: var(--text-sm);">contact@example.com</p>
                  </div>
                </div>
                
                <div style="display: flex; align-items: center; gap: var(--space-4); margin-bottom: var(--space-6);">
                  <div style="width: 3rem; height: 3rem; background: var(--blue-500); border-radius: var(--radius-lg); display: flex; align-items: center; justify-content: center; color: white;">
                    <i class="fab fa-github"></i>
                  </div>
                  <div>
                    <h4 style="font-weight: var(--font-weight-semibold); color: var(--text-primary);">GitHub</h4>
                    <p style="color: var(--text-secondary); font-size: var(--text-sm);">github.com/birtney666</p>
                  </div>
                </div>
                
                <div style="display: flex; align-items: center; gap: var(--space-4);">
                  <div style="width: 3rem; height: 3rem; background: var(--blue-500); border-radius: var(--radius-lg); display: flex; align-items: center; justify-content: center; color: white;">
                    <i class="fas fa-map-marker-alt"></i>
                  </div>
                  <div>
                    <h4 style="font-weight: var(--font-weight-semibold); color: var(--text-primary);">位置</h4>
                    <p style="color: var(--text-secondary); font-size: var(--text-sm);">中国</p>
                  </div>
                </div>
              </div>
            </div>
            
            <div class="card animate-on-scroll" style="animation-delay: 0.1s;">
              <div class="card-header">
                <h3 class="card-title">发送消息</h3>
                <p class="card-description">填写表单，我会尽快回复您</p>
              </div>
              <div class="card-content">
                <form style="space-y: var(--space-6);">
                  <div style="margin-bottom: var(--space-6);">
                    <label style="display: block; margin-bottom: var(--space-2); font-weight: var(--font-weight-medium); color: var(--text-primary);">
                      姓名 *
                    </label>
                    <input 
                      type="text" 
                      required
                      style="width: 100%; padding: var(--space-3); border: 1px solid var(--border-subtle); border-radius: var(--radius-lg); font-size: var(--text-base); transition: border-color var(--duration-fast) var(--ease-standard); background: var(--surface-primary);"
                      placeholder="您的姓名"
                    >
                  </div>
                  <div style="margin-bottom: var(--space-6);">
                    <label style="display: block; margin-bottom: var(--space-2); font-weight: var(--font-weight-medium); color: var(--text-primary);">
                      邮箱 *
                    </label>
                    <input 
                      type="email" 
                      required
                      style="width: 100%; padding: var(--space-3); border: 1px solid var(--border-subtle); border-radius: var(--radius-lg); font-size: var(--text-base); transition: border-color var(--duration-fast) var(--ease-standard); background: var(--surface-primary);"
                      placeholder="your@email.com"
                    >
                  </div>
                  <div style="margin-bottom: var(--space-6);">
                    <label style="display: block; margin-bottom: var(--space-2); font-weight: var(--font-weight-medium); color: var(--text-primary);">
                      主题 *
                    </label>
                    <input 
                      type="text" 
                      required
                      style="width: 100%; padding: var(--space-3); border: 1px solid var(--border-subtle); border-radius: var(--radius-lg); font-size: var(--text-base); transition: border-color var(--duration-fast) var(--ease-standard); background: var(--surface-primary);"
                      placeholder="消息主题"
                    >
                  </div>
                  <div style="margin-bottom: var(--space-6);">
                    <label style="display: block; margin-bottom: var(--space-2); font-weight: var(--font-weight-medium); color: var(--text-primary);">
                      消息 *
                    </label>
                    <textarea 
                      rows="5" 
                      required
                      style="width: 100%; padding: var(--space-3); border: 1px solid var(--border-subtle); border-radius: var(--radius-lg); font-size: var(--text-base); resize: vertical; transition: border-color var(--duration-fast) var(--ease-standard); background: var(--surface-primary);"
                      placeholder="请输入您的消息..."
                    ></textarea>
                  </div>
                  <button type="submit" class="btn btn-primary" style="width: 100%;">
                    <i class="fas fa-paper-plane" aria-hidden="true"></i>
                    发送消息
                  </button>
                </form>
              </div>
            </div>
          </div>
        </div>
      </section>
    "##

/-- Not-found payload (template literal of get404Content). -/
def get404Content : String :=
  r##"
      <section class="hero">
        <div class="hero-container">
          <h1 class="hero-title animate-fade-in-up">404</h1>
          <p class="hero-subtitle animate-fade-in-up" style="animation-delay: 0.1s;">
            页面未找到
          </p>
          <p class="animate-fade-in-up" style="animation-delay: 0.2s; color: var(--text-secondary); margin-bottom: var(--space-8);">
            抱歉，您访问的页面不存在或已被移动。
          </p>
          <div class="hero-actions animate-fade-in-up" style="animation-delay: 0.3s;">
            <a href="#" class="btn btn-primary" data-page="home">
              <i class="fas fa-home" aria-hidden="true"></i>
              返回首页
            </a>
          </div>
        </div>
      </section>
    "##

/-- Static error payload rendered by the catch branch of loadPage (getErrorContent). -/
def getErrorContent : String :=
  r##"
      <section class="hero">
        <div class="hero-container">
          <h1 class="hero-title">出错了</h1>
          <p class="hero-subtitle">页面加载失败，请刷新重试</p>
          <div class="hero-actions">
            <button class="btn btn-primary" onclick="location.reload()">
              <i class="fas fa-refresh" aria-hidden="true"></i>
              刷新页面
            </button>
          </div>
        </div>
      </section>
    "##

/-- Tag span fragment of getProjectCards (inner template of the tags map). -/
def projectTagSpan (tag : String) : String :=
  r##"
              <span style="background: var(--surface-accent); color: var(--text-accent); padding: var(--space-1) var(--space-3); border-radius: var(--radius-full); font-size: var(--text-xs); font-weight: var(--font-weight-medium);">
                "## ++ tag ++ r##"
              </span>
            "##

/-- One project card (outer template of getProjectCards, with the tags map spliced in). -/
def projectCard (project : Project) : String :=
  r##"
      <div class="card animate-on-scroll hover-lift" style="animation-delay: "##
    ++ project.delay
    ++ r##"s;">
        <div class="card-header">
          <div style="width: 3rem; height: 3rem; background: linear-gradient(135deg, var(--blue-500), var(--blue-600)); border-radius: var(--radius-xl); display: flex; align-items: center; justify-content: center; color: white; margin-bottom: var(--space-4);">
            <i class=""##
    ++ project.icon
    ++ r##"" style="font-size: 1.25rem;"></i>
          </div>
          <h3 class="card-title">"##
    ++ project.title
    ++ r##"</h3>
          <p class="card-description">"##
    ++ project.description
    ++ r##"</p>
        </div>
        <div class="card-footer">
          <div style="display: flex; flex-wrap: wrap; gap: var(--space-2);">
            "##
    ++ String.join (project.tags.map projectTagSpan)
    ++ r##"
          </div>
        </div>
      </div>
    "##

/-- getProjectCards: render every project record and join with the empty separator. -/
def getProjectCards : String :=
  String.join (projects.map projectCard)

/-- Projects page payload (template literal of getProjectsContent, card grid spliced in). -/
def getProjectsContent : String :=
  r##"
      <section class="hero">
        <div class="hero-container">
          <h1 class="hero-title animate-fade-in-up">我的项目</h1>
          <p class="hero-subtitle animate-fade-in-up" style="animation-delay: 0.1s;">
            展示技术实力与创新思维的作品集
          </p>
        </div>
      </section>

      <section class="section">
        <div class="container">
          <div class="grid grid-cols-1 md:grid-cols-2 lg:grid-cols-3">
            "## ++ getProjectCards ++ r##"
          </div>
        </div>
      </section>
    "##
/-- getPageContent: the switch of `getPageContent(page)` — the pure
page-identifier to content-payload mapping; the default branch yields the
not-found payload. -/
def getPageContent (page : String) : String :=
  match page with
  | "home" => getHomeContent
  | "about" => getAboutContent
  | "projects" => getProjectsContent
  | "contact" => getContactContent
  | _ => get404Content

/-- The `titles` object literal of `updatePageTitle`, as a partial map. -/
def pageTitles (page : String) : Option String :=
  match page with
  | "home" => some "Birtney666 - 开发者 & 创造者"
  | "about" => some "关于我 - Birtney666"
  | "projects" => some "我的项目 - Birtney666"
  | "contact" => some "联系我 - Birtney666"
  | _ => none

/-- updatePageTitle: `document.title = titles[page] || titles.home`. -/
def updatePageTitle (page : String) : String :=
  (pageTitles page).getD ((pageTitles "home").getD "")

/-- Externally visible effects of the controller, in chronological order:
DOM writes, logs, timer waits elapsing, history pushes, dispatched events. -/
inductive Ev where
  | updateNav
  | logNoContainer
  | fadeOutStyles
  | fadeOutWait
  | contentSwap
  | fadeInStyles
  | fadeInWait
  | rearmObservers
  | scrollTop
  | setTitle
  | pageLoaded (page : String)
  | logError
  | renderError
  | historyPush (page : String) (url : String)
  | gtagConfig (url : String)
  | warnNoObserver
  deriving Repr, DecidableEq

/-- The controller state: the `currentPage`/`isLoading` fields of
`ModernWebApp`, plus the pieces of browser state the controller reads and
writes — whether `document.getElementById` on the main-content id exists, that
innerHTML of that container, the native history stack of pushed `({page}, url)`
entries (newest first), `document.title`, whether `IntersectionObserver`
exists in `window`, whether `gtag` is defined, the ids of the elements
carrying the animate-on-scroll class, the ids currently observed by
`animationObserver`, and the ids carrying the in-view class. -/
structure AppState where
  currentPage : String
  isLoading : Bool
  hasMainContent : Bool
  mainHTML : String
  historyStack : List (String × String)
  title : String
  hasIntersectionObserver : Bool
  gtagDefined : Bool
  animatable : List Nat
  observed : List Nat
  revealed : List Nat
  deriving Repr, DecidableEq

/-- Fault oracle for the `try` block of `loadPage`: whether the `fadeOut`
resp. `fadeIn` DOM steps throw an exception.  In the unfailing browser run
both are `false`; the flags let the theorems cover every exception path the
`catch`/`finally` of the source must handle. -/
structure Faults where
  fadeOutThrows : Bool
  fadeInThrows : Bool
  deriving Repr, DecidableEq

/-- The run with no injected fade faults. -/
def noFaults : Faults := ⟨false, false⟩

/-- setupScrollAnimations: disconnect any previous observer, then
`new IntersectionObserver(...)` — which throws when the host lacks the
capability (this call site is NOT guarded) — and observe every
animate-on-scroll element.  Returns the new state and whether it threw. -/
def setupScrollAnimations (s : AppState) : AppState × Bool :=
  let s1 := { s with observed := [] }
  if s1.hasIntersectionObserver then
    ({ s1 with observed := s1.animatable }, false)
  else
    (s1, true)

/-- setupAnimations: the guarded initial arming — if the browser lacks
`IntersectionObserver`, warn and skip; otherwise call
`setupScrollAnimations`. -/
def setupAnimations (s : AppState) : AppState × List Ev :=
  if s.hasIntersectionObserver then
    ((setupScrollAnimations s).1, [])
  else
    (s, [Ev.warnNoObserver])

/-- Effect of one entry `(target, isIntersecting)` delivered to the
intersection-observer callback of `setupScrollAnimations`: on intersection the
target gains the in-view class (`classList.add`, set semantics) and is
immediately unobserved. -/
def observerStep (st : AppState) (e : Nat × Bool) : AppState :=
  if e.2 then
    { st with
      revealed := if e.1 ∈ st.revealed then st.revealed else e.1 :: st.revealed,
      observed := st.observed.filter (fun x => x ≠ e.1) }
  else st

/-- One invocation of the observer callback on a batch of entries
(`entries.forEach`). -/
def observerCallback (s : AppState) (entries : List (Nat × Bool)) : AppState :=
  entries.foldl observerStep s

/-- Synchronous prefix of `async loadPage(page, pushState)`: the re-entrancy
guard, `isLoading := true`, `currentPage := page`, `updateNavigation`, the
container lookup, and the synchronous part of `await this.fadeOut(...)`
(styles applied, 150ms timer scheduled).  Returns the state and trace at the
moment `loadPage` first suspends, and whether a transition is now in flight
(`false` when the guard fired, the container was missing, or `fadeOut` threw
synchronously — in the last case the `catch`/`finally` also already ran).
The `pushState` parameter of the source is unused inside `loadPage` (the
history push lives in `navigateTo`), so it is omitted here. -/
def loadPageSync (f : Faults) (s : AppState) (page : String) :
    AppState × List Ev × Bool :=
  if s.isLoading then (s, [], false)
  else
    let s1 := { s with isLoading := true, currentPage := page }
    if !s1.hasMainContent then
      ({ s1 with isLoading := false }, [Ev.updateNav, Ev.logNoContainer], false)
    else if f.fadeOutThrows then
      ({ s1 with mainHTML := getErrorContent, isLoading := false },
        [Ev.updateNav, Ev.logError, Ev.renderError], false)
    else
      (s1, [Ev.updateNav, Ev.fadeOutStyles], true)

/-- Continuation of `loadPage` from the fade-out timer firing, through
content swap, `fadeIn`, observer re-arming, scroll-to-top, title update and
the pageLoaded dispatch — or through `catch` (render the static error
payload) — and in every case through `finally` (`isLoading := false`). -/
def loadPageCont (f : Faults) (s : AppState) (page : String) :
    AppState × List Ev :=
  let s1 := { s with mainHTML := getPageContent page }
  if f.fadeInThrows then
    ({ s1 with mainHTML := getErrorContent, isLoading := false },
      [Ev.fadeOutWait, Ev.contentSwap, Ev.logError, Ev.renderError])
  else
    let r := setupScrollAnimations s1
    if r.2 then
      ({ r.1 with mainHTML := getErrorContent, isLoading := false },
        [Ev.fadeOutWait, Ev.contentSwap, Ev.fadeInStyles, Ev.fadeInWait,
          Ev.logError, Ev.renderError])
    else
      ({ r.1 with title := updatePageTitle page, isLoading := false },
        [Ev.fadeOutWait, Ev.contentSwap, Ev.fadeInStyles, Ev.fadeInWait,
          Ev.rearmObservers, Ev.scrollTop, Ev.setTitle, Ev.pageLoaded page])

/-- `loadPage` run to quiescence (the pending continuation, when one was
scheduled, has run): the direct-call path used for the initial load and for
history replay. -/
def loadPage (f : Faults) (s : AppState) (page : String) :
    AppState × List Ev :=
  let r := loadPageSync f s page
  if r.2.2 then
    let c := loadPageCont f r.1 page
    (c.1, r.2.1 ++ c.2)
  else
    (r.1, r.2.1)

/-- Synchronous body of `navigateTo(page)`: the `isLoading` guard, the start
of `loadPage` (which may suspend at the fade-out timer), then — immediately,
before any pending continuation runs — `history.pushState({page}, url)` with
the canonical URL, and the guarded `gtag` call.  The returned state is what
the rest of the program observes while the transition is still in flight;
the `Bool` says whether a continuation is pending. -/
def navigateToSync (f : Faults) (s : AppState) (page : String) :
    AppState × List Ev × Bool :=
  if s.isLoading then (s, [], false)
  else
    let r := loadPageSync f s page
    let url := if page = "home" then "/" else "/" ++ page
    let s2 := { r.1 with historyStack := (page, url) :: r.1.historyStack }
    (s2,
      r.2.1 ++ [Ev.historyPush page url] ++
        (if s2.gtagDefined then [Ev.gtagConfig url] else []),
      r.2.2)

/-- `navigateTo` run to quiescence: the synchronous body, then the pending
fade-out continuation when one was scheduled. -/
def navigateTo (f : Faults) (s : AppState) (page : String) :
    AppState × List Ev :=
  let r := navigateToSync f s page
  if r.2.2 then
    let c := loadPageCont f r.1 page
    (c.1, r.2.1 ++ c.2)
  else
    (r.1, r.2.1)

/-- Click handler `handleNavigation`: `page` is the data-page attribute of
the closest such ancestor of the click target (`none` when there is none);
the dedupe guard `page === this.currentPage || this.isLoading` runs BEFORE
`navigateTo`.  Run to quiescence. -/
def handleNavigation (f : Faults) (s : AppState) (page : Option String) :
    AppState × List Ev :=
  match page with
  | none => (s, [])
  | some p =>
    if p = s.currentPage ∨ s.isLoading then (s, [])
    else navigateTo f s p

/-- popstate handler `handlePopState`: read the page from the associated
state of the history entry, defaulting to home when absent, and replay through
`loadPage` (no history push anywhere on this path).  Run to quiescence. -/
def handlePopState (f : Faults) (s : AppState) (st : Option String) :
    AppState × List Ev :=
  let page := match st with | some p => p | none => "home"
  loadPage f s page

/-- A concrete quiescent state used by the witnesses: freshly loaded home
page, healthy document, observer capability present. -/
def initState : AppState :=
  { currentPage := "home", isLoading := false, hasMainContent := true,
    mainHTML := "", historyStack := [], title := "Birtney666 - 开发者 & 创造者",
    hasIntersectionObserver := true, gtagDefined := false,
    animatable := [0, 1, 2], observed := [0, 1, 2], revealed := [] }

/-- The in-view class set only grows under one observer-callback step. -/
theorem observerStep_revealed_mono (st : AppState) (e : Nat × Bool) :
    st.revealed ⊆ (observerStep st e).revealed := by
  intro a ha
  simp only [observerStep]
  split
  · split <;> simp [ha]
  · exact ha

/-- The in-view class set only grows under an entire observer callback. -/
theorem observerCallback_revealed_mono (entries : List (Nat × Bool)) :
    ∀ s : AppState, s.revealed ⊆ (observerCallback s entries).revealed := by
  induction entries with
  | nil => intro s; simp [observerCallback]
  | cons e rest ih =>
    intro s a ha
    simp only [observerCallback, List.foldl_cons]
    exact ih (observerStep s e) (observerStep_revealed_mono s e ha)

/-- C9: on its first viewport intersection an element gains the in-view
(revealed) state and is immediately unobserved; and the revealed state is
never taken away by any later observer callback, so a revealed element is
never re-hidden or re-animated even if it leaves and re-enters the
viewport. -/
theorem reveal_is_one_shot (s : AppState) (el : Nat)
    (entries : List (Nat × Bool)) :
    (el ∈ (observerCallback s [(el, true)]).revealed ∧
      el ∉ (observerCallback s [(el, true)]).observed) ∧
    s.revealed ⊆ (observerCallback s entries).revealed := by
  refine ⟨⟨?_, ?_⟩, observerCallback_revealed_mono entries s⟩
  · simp only [observerCallback, List.foldl_cons, List.foldl_nil, observerStep]
    by_cases h : el ∈ s.revealed <;> simp [h]
  · simp [observerCallback, observerStep, List.mem_filter]

/-- C6: getPageContent is a pure total mapping: the four enumerated page
identifiers map to their payloads, and every identifier outside that set
deterministically maps to the not-found payload. -/
theorem getPageContent_total (page : String) (h1 : page ≠ "home")
    (h2 : page ≠ "about") (h3 : page ≠ "projects") (h4 : page ≠ "contact") :
    getPageContent page = get404Content ∧
    getPageContent "home" = getHomeContent ∧
    getPageContent "about" = getAboutContent ∧
    getPageContent "projects" = getProjectsContent ∧
    getPageContent "contact" = getContactContent := by
  refine ⟨?_, rfl, rfl, rfl, rfl⟩
  unfold getPageContent
  split <;> simp_all

/-- Witness for C6 at the concrete unrecognized identifier "blog". -/
theorem getPageContent_total_witness :
    ("blog" ≠ "home" ∧ "blog" ≠ "about" ∧ "blog" ≠ "projects" ∧
      "blog" ≠ "contact") ∧
    (getPageContent "blog" = get404Content ∧
      getPageContent "home" = getHomeContent ∧
      getPageContent "about" = getAboutContent ∧
      getPageContent "projects" = getProjectsContent ∧
      getPageContent "contact" = getContactContent) :=
  ⟨by decide,
    getPageContent_total "blog" (by decide) (by decide) (by decide) (by decide)⟩
/-- C1: once a transition started by loadPage (directly or through
navigateTo) has completed or aborted, isLoading is false again — on the
success path, on the missing-container abort, and on every exception path
(fade fault or the unguarded observer construction), in which latter case the
static error payload has been rendered. -/
theorem loadPage_clears_isLoading (f : Faults) (s : AppState) (page : String)
    (h : s.isLoading = false) :
    (loadPage f s page).1.isLoading = false ∧
    (navigateTo f s page).1.isLoading = false ∧
    (s.hasMainContent = true → f.fadeOutThrows = false →
      f.fadeInThrows = true ∨ s.hasIntersectionObserver = false →
      (loadPage f s page).1.mainHTML = getErrorContent) := by
  cases hmc : s.hasMainContent <;> cases hfo : f.fadeOutThrows <;>
    cases hfi : f.fadeInThrows <;> cases hio : s.hasIntersectionObserver <;>
    simp [loadPage, navigateTo, navigateToSync, loadPageSync, loadPageCont,
      setupScrollAnimations, h, hmc, hfo, hfi, hio]

/-- Witness for C1: the no-observer exception path from the idle home state. -/
theorem loadPage_clears_isLoading_witness :
    ({ initState with hasIntersectionObserver := false } : AppState).isLoading
        = false ∧
    ((loadPage noFaults { initState with hasIntersectionObserver := false }
        "about").1.isLoading = false ∧
      (navigateTo noFaults { initState with hasIntersectionObserver := false }
        "about").1.isLoading = false ∧
      (({ initState with hasIntersectionObserver := false } :
            AppState).hasMainContent = true →
        noFaults.fadeOutThrows = false →
        noFaults.fadeInThrows = true ∨
          ({ initState with hasIntersectionObserver := false } :
            AppState).hasIntersectionObserver = false →
        (loadPage noFaults
            { initState with hasIntersectionObserver := false }
            "about").1.mainHTML = getErrorContent)) :=
  ⟨rfl, loadPage_clears_isLoading noFaults
    { initState with hasIntersectionObserver := false } "about" rfl⟩

/-- C8: when the content-insertion target container is missing, loadPage logs
the condition, aborts the transition rendering nothing (the container content
and the history stack are untouched), clears isLoading, and — being a total
function — does not throw. -/
theorem missing_container_aborts (f : Faults) (s : AppState) (page : String)
    (h1 : s.isLoading = false) (h2 : s.hasMainContent = false) :
    (loadPage f s page).1.isLoading = false ∧
    (loadPage f s page).1.mainHTML = s.mainHTML ∧
    (loadPage f s page).1.historyStack = s.historyStack ∧
    (loadPage f s page).2 = [Ev.updateNav, Ev.logNoContainer] := by
  simp [loadPage, loadPageSync, h1, h2]

/-- Witness for C8: missing container from the idle home state. -/
theorem missing_container_aborts_witness :
    (({ initState with hasMainContent := false } : AppState).isLoading = false ∧
      ({ initState with hasMainContent := false } : AppState).hasMainContent
        = false) ∧
    ((loadPage noFaults { initState with hasMainContent := false }
        "about").1.isLoading = false ∧
      (loadPage noFaults { initState with hasMainContent := false }
        "about").1.mainHTML =
        ({ initState with hasMainContent := false } : AppState).mainHTML ∧
      (loadPage noFaults { initState with hasMainContent := false }
        "about").1.historyStack =
        ({ initState with hasMainContent := false } : AppState).historyStack ∧
      (loadPage noFaults { initState with hasMainContent := false }
        "about").2 = [Ev.updateNav, Ev.logNoContainer]) :=
  ⟨⟨rfl, rfl⟩, missing_container_aborts noFaults
    { initState with hasMainContent := false } "about" rfl rfl⟩

/-- C5: in a host without IntersectionObserver the guarded initial arming path
(setupAnimations) skips the enhancement with only a console warning, but the
re-arming path inside loadPage calls setupScrollAnimations unguarded: the
observer construction throws inside the try block and the catch renders the
static error payload — the user-visible outcome the specification rules
out. -/
theorem missing_observer_error_payload :
    (setupAnimations { initState with hasIntersectionObserver := false }).2 =
      [Ev.warnNoObserver] ∧
    (setupAnimations { initState with hasIntersectionObserver := false }).1 =
      { initState with hasIntersectionObserver := false } ∧
    (loadPage noFaults { initState with hasIntersectionObserver := false }
        "about").1.mainHTML = getErrorContent ∧
    (loadPage noFaults { initState with hasIntersectionObserver := false }
        "about").1.isLoading = false ∧
    (loadPage noFaults { initState with hasIntersectionObserver := false }
        "about").2 =
      [Ev.updateNav, Ev.fadeOutStyles, Ev.fadeOutWait, Ev.contentSwap,
        Ev.fadeInStyles, Ev.fadeInWait, Ev.logError, Ev.renderError] :=
  ⟨rfl, rfl, rfl, rfl, rfl⟩
/-- C2 counterexample: with the app idle on home (isLoading false),
navigateTo("home") — the current page — is NOT a no-op: it runs a transition
(nonempty effect trace) and pushes a duplicate history entry.  The
page-equality dedupe lives only in handleNavigation. -/
theorem navigateTo_samePage_not_noop :
    initState.currentPage = "home" ∧ initState.isLoading = false ∧
    initState.historyStack = [] ∧
    (navigateTo noFaults initState "home").1.historyStack = [("home", "/")] ∧
    (navigateTo noFaults initState "home").2 ≠ [] := by
  refine ⟨rfl, rfl, rfl, by decide, by decide⟩

/-- C2 amended: navigateTo itself is a no-op exactly when isLoading is true;
the page-equals-currentPage guard is applied by handleNavigation before it
calls navigateTo.  A second navigateTo(p) issued while the first transition
is still in flight (isLoading still true) does nothing — no transition, no
history push — so the pair performs the transition, and the push, exactly
once. -/
theorem navigateTo_guard (f : Faults) (s : AppState) (page : String) :
    (s.isLoading = true →
      navigateToSync f s page = (s, [], false) ∧
      navigateTo f s page = (s, [])) ∧
    (page = s.currentPage → handleNavigation f s (some page) = (s, [])) ∧
    (s.isLoading = false → s.hasMainContent = true →
      f.fadeOutThrows = false →
      (navigateToSync f s page).2.2 = true ∧
      (navigateToSync f s page).1.isLoading = true ∧
      navigateToSync f (navigateToSync f s page).1 page =
        ((navigateToSync f s page).1, [], false) ∧
      navigateTo f (navigateToSync f s page).1 page =
        ((navigateToSync f s page).1, []) ∧
      (navigateToSync f s page).1.historyStack.length =
        s.historyStack.length + 1) := by
  refine ⟨fun hl => ?_, fun hc => ?_, fun h1 h2 h3 => ?_⟩
  · constructor <;> simp [navigateTo, navigateToSync, hl]
  · simp [handleNavigation, hc]
  · have hmid : (navigateToSync f s page).1.isLoading = true := by
      simp [navigateToSync, loadPageSync, h1, h2, h3]
    refine ⟨?_, hmid, ?_, ?_, ?_⟩
    · simp [navigateToSync, loadPageSync, h1, h2, h3]
    · revert hmid
      generalize (navigateToSync f s page).1 = m
      intro hm
      simp [navigateToSync, hm]
    · revert hmid
      generalize (navigateToSync f s page).1 = m
      intro hm
      simp [navigateTo, navigateToSync, hm]
    · simp [navigateToSync, loadPageSync, h1, h2, h3]

/-- Witness for C2 amended at the idle home state, navigating to about. -/
theorem navigateTo_guard_witness :
    (initState.isLoading = true →
      navigateToSync noFaults initState "about" = (initState, [], false) ∧
      navigateTo noFaults initState "about" = (initState, [])) ∧
    ("about" = initState.currentPage →
      handleNavigation noFaults initState (some "about") = (initState, [])) ∧
    (initState.isLoading = false → initState.hasMainContent = true →
      noFaults.fadeOutThrows = false →
      (navigateToSync noFaults initState "about").2.2 = true ∧
      (navigateToSync noFaults initState "about").1.isLoading = true ∧
      navigateToSync noFaults (navigateToSync noFaults initState "about").1
          "about" =
        ((navigateToSync noFaults initState "about").1, [], false) ∧
      navigateTo noFaults (navigateToSync noFaults initState "about").1
          "about" =
        ((navigateToSync noFaults initState "about").1, []) ∧
      (navigateToSync noFaults initState "about").1.historyStack.length =
        initState.historyStack.length + 1) :=
  navigateTo_guard noFaults initState "about"

/-- C3 counterexample: while the transition started by navigateTo("about")
from home is still in flight (the synchronous body has returned, the fade-out
timer has not fired, isLoading is still true), currentPage already names the
NEW page and the history entry has already been pushed — not, as claimed,
the previous page and no entry. -/
theorem midTransition_counterexample :
    (navigateToSync noFaults initState "about").2.2 = true ∧
    (navigateToSync noFaults initState "about").1.isLoading = true ∧
    initState.currentPage = "home" ∧
    (navigateToSync noFaults initState "about").1.currentPage = "about" ∧
    (navigateToSync noFaults initState "about").1.historyStack =
      [("about", "/about")] := by
  refine ⟨rfl, rfl, rfl, rfl, by decide⟩

/-- C3 amended: when navigateTo begins a transition it sets isLoading := true
and, immediately at transition start, currentPage := page; the history push
happens synchronously when navigateTo returns, while the transition is still
in flight.  Only the document-title update, the page-loaded notification and
the clearing of isLoading wait for completion of the content swap. -/
theorem navigateTo_lifecycle (f : Faults) (s : AppState) (page : String)
    (h1 : s.isLoading = false) (h2 : s.hasMainContent = true)
    (h3 : f.fadeOutThrows = false) :
    (navigateToSync f s page).2.2 = true ∧
    (navigateToSync f s page).1.isLoading = true ∧
    (navigateToSync f s page).1.currentPage = page ∧
    (navigateToSync f s page).1.historyStack =
      (page, if page = "home" then "/" else "/" ++ page) :: s.historyStack ∧
    (navigateToSync f s page).1.title = s.title ∧
    (navigateTo f s page).1.isLoading = false ∧
    (f.fadeInThrows = false → s.hasIntersectionObserver = true →
      (navigateTo f s page).1.title = updatePageTitle page ∧
      Ev.pageLoaded page ∈ (navigateTo f s page).2) := by
  cases hfi : f.fadeInThrows <;> cases hio : s.hasIntersectionObserver <;>
    cases hgd : s.gtagDefined <;>
    simp [navigateTo, navigateToSync, loadPageSync, loadPageCont,
      setupScrollAnimations, h1, h2, h3, hfi, hio, hgd]

/-- Witness for C3 amended at the idle home state, navigating to about. -/
theorem navigateTo_lifecycle_witness :
    (initState.isLoading = false ∧ initState.hasMainContent = true ∧
      noFaults.fadeOutThrows = false) ∧
    ((navigateToSync noFaults initState "about").2.2 = true ∧
      (navigateToSync noFaults initState "about").1.isLoading = true ∧
      (navigateToSync noFaults initState "about").1.currentPage = "about" ∧
      (navigateToSync noFaults initState "about").1.historyStack =
        ("about", if "about" = "home" then "/" else "/" ++ "about") ::
          initState.historyStack ∧
      (navigateToSync noFaults initState "about").1.title = initState.title ∧
      (navigateTo noFaults initState "about").1.isLoading = false ∧
      (noFaults.fadeInThrows = false →
        initState.hasIntersectionObserver = true →
        (navigateTo noFaults initState "about").1.title =
          updatePageTitle "about" ∧
        Ev.pageLoaded "about" ∈ (navigateTo noFaults initState "about").2)) :=
  ⟨⟨rfl, rfl, rfl⟩, navigateTo_lifecycle noFaults initState "about" rfl rfl rfl⟩
/-- C4: a user-initiated (click-path) navigation from the current page to a
different page B pushes exactly one new history entry, whose state carries B
and whose URL is the canonical one; a popstate replay never pushes. -/
theorem history_push_exactly_once (f : Faults) (s : AppState) (B : String)
    (h1 : s.isLoading = false) (h2 : B ≠ s.currentPage) :
    (handleNavigation f s (some B)).1.historyStack =
      (B, if B = "home" then "/" else "/" ++ B) :: s.historyStack ∧
    ∀ st : Option String,
      (handlePopState f s st).1.historyStack = s.historyStack := by
  constructor
  · cases hmc : s.hasMainContent <;> cases hfo : f.fadeOutThrows <;>
      cases hfi : f.fadeInThrows <;> cases hio : s.hasIntersectionObserver <;>
      simp [handleNavigation, navigateTo, navigateToSync, loadPageSync,
        loadPageCont, setupScrollAnimations, h1, h2, hmc, hfo, hfi, hio]
  · intro st
    cases hmc : s.hasMainContent <;> cases hfo : f.fadeOutThrows <;>
      cases hfi : f.fadeInThrows <;> cases hio : s.hasIntersectionObserver <;>
      simp [handlePopState, loadPage, loadPageSync, loadPageCont,
        setupScrollAnimations, h1, hmc, hfo, hfi, hio]

/-- Witness for C4: clicking through to about from the idle home state. -/
theorem history_push_exactly_once_witness :
    (initState.isLoading = false ∧ "about" ≠ initState.currentPage) ∧
    ((handleNavigation noFaults initState (some "about")).1.historyStack =
      ("about", if "about" = "home" then "/" else "/" ++ "about") ::
        initState.historyStack ∧
    ∀ st : Option String,
      (handlePopState noFaults initState st).1.historyStack =
        initState.historyStack) :=
  ⟨⟨rfl, by decide⟩,
    history_push_exactly_once noFaults initState "about" rfl (by decide)⟩

/-- C7: within one successful transition the effect trace is exactly the
sequential chain, in which the fade-out wait elapses strictly before the
content swap, the swap strictly before the fade-in wait, and the fade-in wait
strictly before the re-arming of the scroll observers. -/
theorem transition_ordering (f : Faults) (s : AppState) (page : String)
    (h1 : s.isLoading = false) (h2 : s.hasMainContent = true)
    (h3 : f.fadeOutThrows = false) (h4 : f.fadeInThrows = false)
    (h5 : s.hasIntersectionObserver = true) :
    (loadPage f s page).2 =
      [Ev.updateNav, Ev.fadeOutStyles, Ev.fadeOutWait, Ev.contentSwap,
        Ev.fadeInStyles, Ev.fadeInWait, Ev.rearmObservers, Ev.scrollTop,
        Ev.setTitle, Ev.pageLoaded page] ∧
    ∃ a b c d e : List Ev,
      (loadPage f s page).2 =
        a ++ Ev.fadeOutWait :: (b ++ Ev.contentSwap ::
          (c ++ Ev.fadeInWait :: (d ++ Ev.rearmObservers :: e))) := by
  have htr : (loadPage f s page).2 =
      [Ev.updateNav, Ev.fadeOutStyles, Ev.fadeOutWait, Ev.contentSwap,
        Ev.fadeInStyles, Ev.fadeInWait, Ev.rearmObservers, Ev.scrollTop,
        Ev.setTitle, Ev.pageLoaded page] := by
    simp [loadPage, loadPageSync, loadPageCont, setupScrollAnimations,
      h1, h2, h3, h4, h5]
  refine ⟨htr, [Ev.updateNav, Ev.fadeOutStyles], [], [Ev.fadeInStyles], [],
    [Ev.scrollTop, Ev.setTitle, Ev.pageLoaded page], ?_⟩
  rw [htr]
  rfl

/-- Witness for C7: the transition to about from the idle home state. -/
theorem transition_ordering_witness :
    (initState.isLoading = false ∧ initState.hasMainContent = true ∧
      noFaults.fadeOutThrows = false ∧ noFaults.fadeInThrows = false ∧
      initState.hasIntersectionObserver = true) ∧
    ((loadPage noFaults initState "about").2 =
      [Ev.updateNav, Ev.fadeOutStyles, Ev.fadeOutWait, Ev.contentSwap,
        Ev.fadeInStyles, Ev.fadeInWait, Ev.rearmObservers, Ev.scrollTop,
        Ev.setTitle, Ev.pageLoaded "about"] ∧
    ∃ a b c d e : List Ev,
      (loadPage noFaults initState "about").2 =
        a ++ Ev.fadeOutWait :: (b ++ Ev.contentSwap ::
          (c ++ Ev.fadeInWait :: (d ++ Ev.rearmObservers :: e)))) :=
  ⟨⟨rfl, rfl, rfl, rfl, rfl⟩,
    transition_ordering noFaults initState "about" rfl rfl rfl rfl rfl⟩

/-- C10: after a successful transition to an identifier outside the
enumerated set, the rendered content is the not-found payload but the
document title is the HOME title (titles[page] falls back to titles.home),
not a not-found-specific title. -/
theorem unknown_page_keeps_home_title (f : Faults) (s : AppState)
    (page : String)
    (g1 : s.isLoading = false) (g2 : s.hasMainContent = true)
    (g3 : f.fadeOutThrows = false) (g4 : f.fadeInThrows = false)
    (g5 : s.hasIntersectionObserver = true)
    (h1 : page ≠ "home") (h2 : page ≠ "about") (h3 : page ≠ "projects")
    (h4 : page ≠ "contact") :
    (loadPage f s page).1.title = "Birtney666 - 开发者 & 创造者" ∧
    (loadPage f s page).1.mainHTML = get404Content := by
  have hc : getPageContent page = get404Content := by
    unfold getPageContent
    split <;> simp_all
  have ht : pageTitles page = none := by
    unfold pageTitles
    split <;> simp_all
  constructor
  · simp [loadPage, loadPageSync, loadPageCont, setupScrollAnimations,
      updatePageTitle, ht, g1, g2, g3, g4, g5, pageTitles]
  · simp [loadPage, loadPageSync, loadPageCont, setupScrollAnimations,
      hc, g1, g2, g3, g4, g5]

/-- Witness for C10 at the concrete unrecognized identifier "blog". -/
theorem unknown_page_keeps_home_title_witness :
    (initState.isLoading = false ∧ initState.hasMainContent = true ∧
      noFaults.fadeOutThrows = false ∧ noFaults.fadeInThrows = false ∧
      initState.hasIntersectionObserver = true ∧
      "blog" ≠ "home" ∧ "blog" ≠ "about" ∧ "blog" ≠ "projects" ∧
      "blog" ≠ "contact") ∧
    ((loadPage noFaults initState "blog").1.title =
      "Birtney666 - 开发者 & 创造者" ∧
    (loadPage noFaults initState "blog").1.mainHTML = get404Content) :=
  ⟨⟨rfl, rfl, rfl, rfl, rfl, by decide, by decide, by decide, by decide⟩,
    unknown_page_keeps_home_title noFaults initState "blog" rfl rfl rfl rfl
      rfl (by decide) (by decide) (by decide) (by decide)⟩
end Birtne
